import Mathlib

/-!
Shallow embedding of the `generate-protobuf-validator` scripts:
`ProtocolBufferValidation/Generator.py`, `ProtocolBufferValidation/CppGenerator.py`
and the driver `generate-protobuf-validator.py`.

Python strings are Lean `String`s; a raised `RuntimeError` is an `Except.error`
carrying the formatted message; the dynamically typed argument of
`generateValidator` is a `PyValue`.  The `ProtoFile` / `FieldAnnotation`
modules are imported by the source but absent from the repository snapshot,
so the schema data model is modelled from the specification (section 3).
-/

/-- Model of Python `str.lower` on a single character, for the ASCII range
(the identifiers handled by the registry and the driver are ASCII). -/
def pyCharLower (c : Char) : Char :=
  if 65 ≤ c.toNat ∧ c.toNat ≤ 90 then Char.ofNat (c.toNat + 32) else c

/-- Model of Python `str.lower` (ASCII range). -/
def pyLower (s : String) : String :=
  ⟨s.data.map pyCharLower⟩

theorem pyCharLower_idem (c : Char) : pyCharLower (pyCharLower c) = pyCharLower c := by
  unfold pyCharLower
  by_cases h : 65 ≤ c.toNat ∧ c.toNat ≤ 90
  · have hval : (c.toNat + 32).isValidChar := by
      left; omega
    have htn : (Char.ofNat (c.toNat + 32)).toNat = c.toNat + 32 := by
      rw [Char.ofNat, dif_pos hval]
      rfl
    rw [if_pos h, htn, if_neg]
    omega
  · rw [if_neg h, if_neg h]

theorem pyLower_idem (s : String) : pyLower (pyLower s) = pyLower s := by
  unfold pyLower
  simp only [List.map_map]
  congr 1
  apply List.map_congr_left
  intro a _
  exact pyCharLower_idem a

/-- Modelled from the spec: the FieldAnnotation module (from which
`CppGenerator.py` imports the name RestrictAnnotation) is absent from the
repository snapshot.  Section 3: a constraint on permissible field values,
carrying the constraint expression or bounds. -/
structure RestrictAnnotation where
  constraintExpr : String
deriving DecidableEq

/-- Modelled from the spec: Annotation is a variant type with one known
variant, RestrictAnnotation. -/
inductive Annotation where
  | restrict (r : RestrictAnnotation)
deriving DecidableEq

/-- Modelled from the spec: the declared type tag of a Field (integer, float,
string, bytes, message-reference, repeated-of-kind). -/
inductive FieldKind where
  | integer
  | float
  | string
  | bytes
  | messageRef (target : String)
  | repeatedOf (elem : FieldKind)
deriving DecidableEq

/-- Modelled from the spec: a Field has a name, a declared type tag and zero
or more attached Annotations.  (Named `SchemaField` here because `Field` is
taken by the algebra library.) -/
structure SchemaField where
  name : String
  kind : FieldKind
  annotations : List Annotation
deriving DecidableEq

/-- Modelled from the spec: a Message is a named record type with an ordered
sequence of Fields. -/
structure Message where
  name : String
  fields : List SchemaField
deriving DecidableEq

/-- Modelled from the spec: the `ProtoFile` module is absent from the
repository snapshot.  Section 3 SchemaFile: an origin identifier and an
ordered sequence of Messages. -/
structure ProtoFile where
  origin : String
  messages : List Message
deriving DecidableEq

/-- A dynamically typed Python value, covering the cases relevant to the
`isinstance(protoFile, ProtoFile)` check in `CppGenerator.generateValidator`:
either a `ProtoFile` instance or some other object, tracked with its class
name (used by the `%s` formatting of `protoFile.__class__.__name__`). -/
inductive PyValue where
  | protoFile (pf : ProtoFile)
  | pyNone
  | pyStr (s : String)
  | pyInt (n : Int)
deriving DecidableEq

/-- Python `value.__class__.__name__` for the modelled values. -/
def PyValue.className : PyValue → String
  | .protoFile _ => "ProtoFile"
  | .pyNone => "NoneType"
  | .pyStr _ => "str"
  | .pyInt _ => "int"

/-- A raised Python exception; the source only ever raises
`RuntimeError(<message>)`. -/
inductive PyError where
  | runtimeError (msg : String)
deriving DecidableEq

/-- The concrete generator instances the registry can return; the source
registers exactly one, `CppGenerator()`. -/
inductive GeneratorInstance where
  | cppGenerator
deriving DecidableEq

/-- The generated source text: an ordered sequence of emitted textual units. -/
def GeneratedSource := List String
deriving DecidableEq

/-- `Generator.select` from `Generator.py`: lowercases the identifier, returns
a `CppGenerator` instance for `"cpp"` / `"c++"`, and otherwise raises
`RuntimeError` with the message built by
`"No generator known for language \"%s\"" % programmingLanguage`
(where `programmingLanguage` has already been lowercased). -/
def Generator.select (programmingLanguage : String) : Except PyError GeneratorInstance :=
  let pl := pyLower programmingLanguage
  if pl = "cpp" ∨ pl = "c++" then
    .ok .cppGenerator
  else
    .error (.runtimeError ("No generator known for language \"" ++ (pl ++ "\"")))

/-- `Generator.generateValidator` from `Generator.py` (the base class method):
raises `RuntimeError` unconditionally, for every argument. -/
def Generator.generateValidator (protoFile : PyValue) : Except PyError GeneratedSource :=
  .error (.runtimeError "Not implemented - you have to call this function on a sub-class")

/-- `CppGenerator.generateValidator` from `CppGenerator.py`: raises
`RuntimeError` when the argument is not a `ProtoFile` instance; otherwise the
body ends after the `isinstance` check (the remaining line is the comment
`# TODO: iterate through all messages and generate the code`), so the call
returns having emitted no code at all: the generated source is empty. -/
def CppGenerator.generateValidator (protoFile : PyValue) : Except PyError GeneratedSource :=
  match protoFile with
  | .protoFile _ => .ok []
  | v => .error (.runtimeError ("Expected object of type ProtoFile but got \"" ++ (v.className ++ "\"")))

/-- Whether a `PyValue` is a `ProtoFile` instance (`isinstance(v, ProtoFile)`). -/
def PyValue.isProtoFile : PyValue → Bool
  | .protoFile _ => true
  | _ => false

/-- Substring membership, as in the Python test `needle in hay`: some
contiguous slice of `hay` equals `needle`. -/
def strContains (hay needle : String) : Bool :=
  (List.range (hay.length + 1)).any fun i =>
    (hay.data.drop i).take needle.data.length == needle.data

/-- Observable outcome of one run of the driver script
`generate-protobuf-validator.py`: the process exit status and which of the
observable steps happened. -/
structure DriverResult where
  exitCode : Nat
  errorPrinted : Bool
  helpPrinted : Bool
  generatorSelected : Bool
  generationInvoked : Bool
deriving DecidableEq

/-- The `__main__` block of `generate-protobuf-validator.py`.  `argv` is
`sys.argv` (program name first); `fromFile` stands for the external parser
`ProtoFile.fromFile`, which returns `None` (here `none`) on a parse failure.
The script: rejects any argument count other than one (printing an error and
the usage text, exit 1); prints usage and exits 0 on a case-insensitive
`-h` / `--help`; reports and exits 1 when parsing returns `None`; otherwise
selects the `"cpp"` generator and invokes `generateValidator` on the parsed
file (an uncaught exception would print a traceback and exit 1). -/
def driverMain (argv : List String) (fromFile : String → Option ProtoFile) : DriverResult :=
  if argv.length = 2 then
    let arg := argv.getD 1 ""
    if pyLower arg = "-h" ∨ pyLower arg = "--help" then
      { exitCode := 0, errorPrinted := false, helpPrinted := true,
        generatorSelected := false, generationInvoked := false }
    else
      match fromFile arg with
      | none =>
          { exitCode := 1, errorPrinted := true, helpPrinted := false,
            generatorSelected := false, generationInvoked := false }
      | some pf =>
          match Generator.select "cpp" with
          | .ok .cppGenerator =>
              match CppGenerator.generateValidator (.protoFile pf) with
              | .ok _ =>
                  { exitCode := 0, errorPrinted := false, helpPrinted := false,
                    generatorSelected := true, generationInvoked := true }
              | .error _ =>
                  { exitCode := 1, errorPrinted := true, helpPrinted := false,
                    generatorSelected := true, generationInvoked := true }
          | .error _ =>
              { exitCode := 1, errorPrinted := true, helpPrinted := false,
                generatorSelected := true, generationInvoked := false }
  else
    { exitCode := 1, errorPrinted := true, helpPrinted := true,
      generatorSelected := false, generationInvoked := false }

/-- A concrete schema used as an evaluation point: one Message `User` with an
annotated integer field `age` and an unannotated string field `name`
(section 8 end-to-end example of the spec). -/
def userProtoFile : ProtoFile :=
  { origin := "user.proto"
    messages :=
      [ { name := "User"
          fields :=
            [ { name := "age", kind := .integer,
                annotations := [.restrict { constraintExpr := "min=0,max=150" }] },
              { name := "name", kind := .string, annotations := [] } ] } ] }

/-- A needle placed between two other strings is found by `strContains`. -/
theorem strContains_append (pre needle post : String) :
    strContains (pre ++ (needle ++ post)) needle = true := by
  unfold strContains
  rw [List.any_eq_true]
  refine ⟨pre.length, List.mem_range.mpr ?_, ?_⟩
  · have : (pre ++ (needle ++ post)).length
        = pre.length + (needle.length + post.length) := by
      simp [String.length_append]
    omega
  · have hdata : (pre ++ (needle ++ post)).data
        = pre.data ++ (needle.data ++ post.data) := by
      cases pre; cases needle; cases post; rfl
    have hlen : pre.length = pre.data.length := rfl
    rw [hdata, hlen, List.drop_left, List.take_left]
    exact beq_self_eq_true needle.data

/-- C1: the C++ generator is not yet implemented: on a well-formed schema
holding one Message (the section 8 `User` example), `generateValidator`
returns having emitted no validation unit at all, while the claim requires
one unit per Message.  The TODO comment in the source records the intended
iteration that is missing. -/
theorem cppGenerator_emits_no_unit_for_User :
    CppGenerator.generateValidator (.protoFile userProtoFile) = .ok [] ∧
    userProtoFile.messages.length = 1 :=
  ⟨rfl, rfl⟩

/-- C2 counterexample: for the identifier `"JAVA"`, `Generator.select` fails,
but the error message carries the lowercased identifier and does not contain
the original-case identifier `"JAVA"`, contradicting the claim that the
message includes the identifier in its original case. -/
theorem select_JAVA_message_lacks_original_case :
    Generator.select "JAVA" =
      .error (.runtimeError "No generator known for language \"java\"") ∧
    strContains "No generator known for language \"java\"" "JAVA" = false :=
  ⟨rfl, by decide⟩

/-- C2 amended: for every identifier whose lowercase form is neither `"cpp"`
nor `"c++"`, `Generator.select` fails with the RuntimeError (the UnknownLanguage
error of the spec) whose message includes the LOWERCASED identifier. -/
theorem select_unknown_reports_lowercased (s : String)
    (h1 : pyLower s ≠ "cpp") (h2 : pyLower s ≠ "c++") :
    Generator.select s =
      .error (.runtimeError
        ("No generator known for language \"" ++ (pyLower s ++ "\""))) ∧
    strContains ("No generator known for language \"" ++ (pyLower s ++ "\""))
      (pyLower s) = true := by
  constructor
  · simp only [Generator.select]
    rw [if_neg]
    rintro (hc | hc)
    · exact h1 hc
    · exact h2 hc
  · exact strContains_append _ _ _

/-- C2 amended, witness at the concrete identifier `"JAVA"`. -/
theorem select_unknown_reports_lowercased_witness :
    Generator.select "JAVA" =
      .error (.runtimeError
        ("No generator known for language \"" ++ (pyLower "JAVA" ++ "\""))) ∧
    strContains ("No generator known for language \"" ++ (pyLower "JAVA" ++ "\""))
      (pyLower "JAVA") = true :=
  select_unknown_reports_lowercased "JAVA" (by decide) (by decide)

/-- C3: `Generator.select` is case-insensitive: it agrees with itself on the
lowercased identifier, and `"CPP"`, `"cpp"` and `"C++"` all yield the same
concrete C++ generator instance. -/
theorem select_case_insensitive :
    (∀ s : String, Generator.select s = Generator.select (pyLower s)) ∧
    Generator.select "CPP" = .ok .cppGenerator ∧
    Generator.select "cpp" = .ok .cppGenerator ∧
    Generator.select "C++" = .ok .cppGenerator := by
  refine ⟨fun s => ?_, rfl, rfl, rfl⟩
  simp only [Generator.select]
  rw [pyLower_idem]

/-- C4: `CppGenerator.generateValidator` fails (raising the RuntimeError that
realises the InvalidInput error of the spec) exactly when its argument is not
a ProtoFile instance; in the embedding a failing call returns only the error
value, so no output is produced on failure (fail-fast). -/
theorem cppGenerator_rejects_iff_not_protoFile (v : PyValue) :
    (∃ msg, CppGenerator.generateValidator v = .error (.runtimeError msg)) ↔
      v.isProtoFile = false := by
  cases v <;> simp [CppGenerator.generateValidator, PyValue.isProtoFile]

/-- C5: generation is deterministic: two invocations of
`CppGenerator.generateValidator` on the identical ProtoFile value return the
identical GeneratedSource result (the embedding is a pure function of the
schema value: the source consults no external state). -/
theorem cppGenerator_deterministic (pf : ProtoFile)
    (r₁ r₂ : Except PyError GeneratedSource)
    (h₁ : CppGenerator.generateValidator (.protoFile pf) = r₁)
    (h₂ : CppGenerator.generateValidator (.protoFile pf) = r₂) :
    r₁ = r₂ := by
  rw [← h₁, ← h₂]

/-- C5 witness: both invocations on the concrete `userProtoFile` return the
same result. -/
theorem cppGenerator_deterministic_witness :
    (Except.ok [] : Except PyError GeneratedSource) = Except.ok [] :=
  cppGenerator_deterministic userProtoFile (Except.ok []) (Except.ok []) rfl rfl

/-- C6: `Generator.select "java"` fails with the RuntimeError (the spec
UnknownLanguage error) whose message contains the substring `"java"`. -/
theorem select_java_fails_mentioning_java :
    Generator.select "java" =
      .error (.runtimeError "No generator known for language \"java\"") ∧
    strContains "No generator known for language \"java\"" "java" = true :=
  ⟨rfl, by decide⟩

/-- C7: when the parser returns `None` for the given file name (and the
argument is not the help flag, so parsing is actually reached), the driver
prints an error and exits with status 1, without selecting a generator and
without invoking generation. -/
theorem driver_parse_failure_exits_1 (prog fileName : String)
    (fromFile : String → Option ProtoFile)
    (h1 : pyLower fileName ≠ "-h") (h2 : pyLower fileName ≠ "--help")
    (hparse : fromFile fileName = none) :
    driverMain [prog, fileName] fromFile =
      { exitCode := 1, errorPrinted := true, helpPrinted := false,
        generatorSelected := false, generationInvoked := false } := by
  simp [driverMain, h1, h2, hparse]

/-- C7 witness at a concrete failing parse. -/
theorem driver_parse_failure_exits_1_witness :
    driverMain ["generate-protobuf-validator.py", "bad.proto"] (fun _ => none) =
      { exitCode := 1, errorPrinted := true, helpPrinted := false,
        generatorSelected := false, generationInvoked := false } :=
  driver_parse_failure_exits_1 "generate-protobuf-validator.py" "bad.proto"
    (fun _ => none) (by decide) (by decide) rfl

/-- C8: with any number of command-line arguments other than one (the script
name `prog` is `sys.argv[0]`, the arguments are `args`), the driver prints an
error message (and the usage text) and exits with status 1. -/
theorem driver_wrong_arg_count_exits_1 (prog : String) (args : List String)
    (fromFile : String → Option ProtoFile) (h : args.length ≠ 1) :
    driverMain (prog :: args) fromFile =
      { exitCode := 1, errorPrinted := true, helpPrinted := true,
        generatorSelected := false, generationInvoked := false } := by
  have hlen : ¬ ((prog :: args).length = 2) := by
    simp only [List.length_cons]
    omega
  unfold driverMain
  rw [if_neg hlen]

/-- C8 witness: zero command-line arguments. -/
theorem driver_wrong_arg_count_exits_1_witness :
    driverMain ["generate-protobuf-validator.py"] (fun _ => none) =
      { exitCode := 1, errorPrinted := true, helpPrinted := true,
        generatorSelected := false, generationInvoked := false } :=
  driver_wrong_arg_count_exits_1 "generate-protobuf-validator.py" []
    (fun _ => none) (by decide)

/-- C9: calling `generateValidator` on the base Generator class raises
RuntimeError for every argument, including a ProtoFile instance. -/
theorem base_generateValidator_always_raises (v : PyValue) :
    Generator.generateValidator v =
      .error (.runtimeError
        "Not implemented - you have to call this function on a sub-class") :=
  rfl

/-- C10: the help-flag match of the driver is case-insensitive: any single
argument whose Python-lowercased form is `"-h"` or `"--help"` makes the
driver print usage and exit with status 0. -/
theorem driver_help_case_insensitive (prog a : String)
    (fromFile : String → Option ProtoFile)
    (h : pyLower a = "-h" ∨ pyLower a = "--help") :
    driverMain [prog, a] fromFile =
      { exitCode := 0, errorPrinted := false, helpPrinted := true,
        generatorSelected := false, generationInvoked := false } := by
  rcases h with h | h <;> simp [driverMain, h]

/-- C10 witness at the mixed-case flags `"-H"` and `"--HELP"`. -/
theorem driver_help_case_insensitive_witness :
    driverMain ["generate-protobuf-validator.py", "-H"] (fun _ => none) =
      { exitCode := 0, errorPrinted := false, helpPrinted := true,
        generatorSelected := false, generationInvoked := false } ∧
    driverMain ["generate-protobuf-validator.py", "--HELP"] (fun _ => none) =
      { exitCode := 0, errorPrinted := false, helpPrinted := true,
        generatorSelected := false, generationInvoked := false } :=
  ⟨driver_help_case_insensitive "generate-protobuf-validator.py" "-H"
      (fun _ => none) (Or.inl (by decide)),
    driver_help_case_insensitive "generate-protobuf-validator.py" "--HELP"
      (fun _ => none) (Or.inr (by decide))⟩
